import Mathlib

/-!
Shallow embedding of the five SOLID teaching modules in
`src/tasks/task_1.py` … `src/tasks/task_5.py`, and proofs of the spec's
claims about them.

Modelling conventions, shared by all five tasks:
  * A Python `dict` is modelled as a total function into `Option`
    (lookup via `dict.get` returns `None` on a missing key).
  * Python numbers are modelled as exact rationals `ℚ`.  The discount
    rates in task 2 are IEEE-754 doubles in Python; at every input the
    spec checks (amount = 100) the double products `100*0.05`,
    `100*0.15` and `100*0.10` round exactly to `5.0`, `15.0` and `10.0`,
    so the rational model agrees with the Python values there.
  * Console output is modelled as structured values rather than literal
    strings where the argument flow matters (task 5); the spec states the
    literal wording of console messages is not part of the contract.
-/

namespace Task1

/-- State of `UserManager` (task_1.py, refactored class): the in-memory
dict `self._users` mapping a user id to an email, modelled as a total
function into `Option`. -/
structure UserManager where
  users : String → Option String

/-- `UserManager.__init__`: `self._users = {}` — the empty dict. -/
def UserManager.empty : UserManager := ⟨fun _ => none⟩

/-- `UserManager.add_user`: `self._users[user_id] = email` (the print is
cosmetic).  Dict item assignment overwrites any previous binding. -/
def UserManager.add_user (m : UserManager) (user_id email : String) :
    UserManager :=
  ⟨fun k => if k = user_id then some email else m.users k⟩

/-- `UserManager.get_user_email`: `return self._users.get(user_id)`. -/
def UserManager.get_user_email (m : UserManager) (user_id : String) :
    Option String :=
  m.users user_id

/-- `UserManager.remove_user`: `if user_id in self._users: del
self._users[user_id]` — deletes the binding only when present, otherwise
leaves the dict untouched; a total function, no exception path. -/
def UserManager.remove_user (m : UserManager) (user_id : String) :
    UserManager :=
  if (m.users user_id).isSome then
    ⟨fun k => if k = user_id then none else m.users k⟩
  else m

end Task1

namespace Task2

/-- The `DiscountStrategy` capability (task_2.py): one method
`calculate_discount(amount)` returning a number. -/
structure DiscountStrategy where
  calculate_discount : ℚ → ℚ

/-- `RegularDiscount.calculate_discount`: `amount * 0.05`. -/
def RegularDiscount : DiscountStrategy := ⟨fun amount => amount * (5 / 100)⟩

/-- `VIPDiscount.calculate_discount`: `amount * 0.15`. -/
def VIPDiscount : DiscountStrategy := ⟨fun amount => amount * (15 / 100)⟩

/-- `PremiumDiscount.calculate_discount`: `amount * 0.10`. -/
def PremiumDiscount : DiscountStrategy := ⟨fun amount => amount * (10 / 100)⟩

/-- State of `DiscountCalculator`: the dict `self._strategies` keyed by
customer type. -/
structure DiscountCalculator where
  strategies : String → Option DiscountStrategy

/-- `DiscountCalculator.__init__`: the default strategy table
`\x7b"Regular": RegularDiscount(), "VIP": VIPDiscount(),
"Premium": PremiumDiscount()\x7d`. -/
def DiscountCalculator.default : DiscountCalculator :=
  ⟨fun key =>
    if key = "Regular" then some RegularDiscount
    else if key = "VIP" then some VIPDiscount
    else if key = "Premium" then some PremiumDiscount
    else none⟩

/-- `DiscountCalculator.calculate_discount`: `strategy =
self._strategies.get(customer_type); if strategy: return
strategy.calculate_discount(amount); return 0`.  (A strategy object is
always truthy, so the truthiness test is exactly the `Option` match.) -/
def DiscountCalculator.calculate_discount (c : DiscountCalculator)
    (customer_type : String) (amount : ℚ) : ℚ :=
  match c.strategies customer_type with
  | some strategy => strategy.calculate_discount amount
  | none => 0

/-- Modelled from the spec: `task_2.py` defines no `register` method on
`DiscountCalculator`; the spec's `register(key, strategy)` "associates a
key with a capability implementation" in the calculator's strategy
table, i.e. dict item assignment `self._strategies[key] = strategy`,
which is how the constructor populates the table. -/
def DiscountCalculator.register (c : DiscountCalculator) (key : String)
    (s : DiscountStrategy) : DiscountCalculator :=
  ⟨fun k => if k = key then some s else c.strategies k⟩

end Task2

namespace Task3

/-- `Rectangle` (task_3.py, refactored): fields `self._width`,
`self._height`. -/
structure Rectangle where
  width : ℚ
  height : ℚ

/-- The `width` property setter: `self._width = value`. -/
def Rectangle.setWidth (r : Rectangle) (value : ℚ) : Rectangle :=
  { r with width := value }

/-- The `height` property setter: `self._height = value`. -/
def Rectangle.setHeight (r : Rectangle) (value : ℚ) : Rectangle :=
  { r with height := value }

/-- `Rectangle.calculate_area`: `return self._width * self._height`. -/
def Rectangle.calculate_area (r : Rectangle) : ℚ := r.width * r.height

/-- `Square` (task_3.py, refactored): a single field `self._size`; it
does not inherit `Rectangle`, so it has no other dimension at all. -/
structure Square where
  size : ℚ

/-- The `size` property setter: `self._size = value`. -/
def Square.setSize (s : Square) (value : ℚ) : Square := { s with size := value }

/-- `Square.calculate_area`: `return self._size * self._size`. -/
def Square.calculate_area (s : Square) : ℚ := s.size * s.size

end Task3

namespace Task4

/-- The three segregated capability interfaces of task_4.py:
`IWorkable.work`, `IEatable.eat`, `ISleepable.sleep`. -/
inductive Capability
  | work
  | eat
  | sleep
deriving DecidableEq

/-- `class HumanWorker(IWorkable, IEatable, ISleepable)`: the exact set
of capability interfaces `HumanWorker` declares. -/
def HumanWorker.capabilities : List Capability :=
  [Capability.work, Capability.eat, Capability.sleep]

/-- `class RobotWorker(IWorkable)`: the exact set of capability
interfaces `RobotWorker` declares — only `IWorkable`. -/
def RobotWorker.capabilities : List Capability := [Capability.work]

/-- `HumanWorker.work`. -/
def HumanWorker.work : String := "Human working..."

/-- `HumanWorker.eat`. -/
def HumanWorker.eat : String := "Human eating..."

/-- `HumanWorker.sleep`. -/
def HumanWorker.sleep : String := "Human sleeping..."

/-- `RobotWorker.work` — the only method the class defines. -/
def RobotWorker.work : String := "Robot working..."

end Task4

namespace Task5

/-- Observable console events of task_5.py, structured (the spec says a
reimplementation may log structured events in place of the literal
strings). -/
inductive Channel
  | email
  | sms
deriving DecidableEq

/-- One logged line of `task_5.py`. -/
inductive Event
  | processing (user : String)
  | sent (channel : Channel) (recipient : String) (message : String)
deriving DecidableEq

/-- The `IMessageSender` capability: one method
`send(recipient, message)`. -/
structure IMessageSender where
  send : String → String → Event

/-- `EmailSender.send`: logs the email-send line for exactly the given
recipient and message. -/
def EmailSender : IMessageSender :=
  ⟨fun recipient message => Event.sent Channel.email recipient message⟩

/-- `SMSSender.send`: logs the SMS-send line for exactly the given
recipient and message. -/
def SMSSender : IMessageSender :=
  ⟨fun recipient message => Event.sent Channel.sms recipient message⟩

/-- `NotificationService.__init__(self, message_sender)`: the injected
sender stored as `self._sender`. -/
structure NotificationService where
  sender : IMessageSender

/-- `NotificationService.send_notification(user, contact, message)`:
prints the processing line, then `self._sender.send(contact, message)`;
the trace of logged events, in order. -/
def NotificationService.send_notification (svc : NotificationService)
    (user contact message : String) : List Event :=
  [Event.processing user, svc.sender.send contact message]

end Task5

/-- Claim C1: with the default strategy table of task 2,
`calculate_discount "Regular" 100 = 5`, `"VIP" ↦ 15`, `"Premium" ↦ 10`,
and an unregistered key such as `"Unknown" ↦ 0`. -/
theorem C1_default_table_values :
    Task2.DiscountCalculator.default.calculate_discount "Regular" 100 = 5 ∧
    Task2.DiscountCalculator.default.calculate_discount "VIP" 100 = 15 ∧
    Task2.DiscountCalculator.default.calculate_discount "Premium" 100 = 10 ∧
    Task2.DiscountCalculator.default.calculate_discount "Unknown" 100 = 0 := by
  refine ⟨?_, ?_, ?_, ?_⟩ <;>
    simp [Task2.DiscountCalculator.calculate_discount,
      Task2.DiscountCalculator.default, Task2.RegularDiscount,
      Task2.VIPDiscount, Task2.PremiumDiscount] <;> norm_num

/-- Claim C2: for every calculator state, every key absent from its
strategy table and every amount, `calculate_discount` returns the
neutral value 0 (total function — no failure path). -/
theorem C2_unknown_key_neutral (c : Task2.DiscountCalculator)
    (key : String) (amount : ℚ) (h : c.strategies key = none) :
    c.calculate_discount key amount = 0 := by
  simp [Task2.DiscountCalculator.calculate_discount, h]

/-- Witness for C2: the default table has no entry for "Unknown", and
the call returns 0. -/
theorem C2_unknown_key_neutral_witness :
    Task2.DiscountCalculator.default.strategies "Unknown" = none ∧
    Task2.DiscountCalculator.default.calculate_discount "Unknown" 100 = 0 := by
  refine ⟨by simp [Task2.DiscountCalculator.default], ?_⟩
  exact C2_unknown_key_neutral Task2.DiscountCalculator.default "Unknown" 100
    (by simp [Task2.DiscountCalculator.default])

/-- Claim C3: after `register key s`, `calculate_discount key amount`
looks up and invokes `s`, returning its numeric result — for every
calculator state, key, strategy and amount, through the one unchanged
dispatch definition. -/
theorem C3_register_then_dispatch (c : Task2.DiscountCalculator)
    (key : String) (s : Task2.DiscountStrategy) (amount : ℚ) :
    (c.register key s).calculate_discount key amount =
      s.calculate_discount amount := by
  simp [Task2.DiscountCalculator.calculate_discount,
    Task2.DiscountCalculator.register]

/-- Claim C4: `add_user u e` then `get_user_email u` returns `e`, and
after a subsequent `remove_user u`, `get_user_email u` returns `none`
(not found), from any starting state. -/
theorem C4_add_get_remove (m : Task1.UserManager) (u e : String) :
    ((m.add_user u e).get_user_email u = some e) ∧
    (((m.add_user u e).remove_user u).get_user_email u = none) := by
  constructor
  · simp [Task1.UserManager.add_user, Task1.UserManager.get_user_email]
  · simp [Task1.UserManager.add_user, Task1.UserManager.get_user_email,
      Task1.UserManager.remove_user]

/-- Claim C5: `remove_user` on an absent user id is a no-op — the state
is returned unchanged (and, being a total function, it raises
nothing). -/
theorem C5_remove_absent_noop (m : Task1.UserManager) (u : String)
    (h : m.users u = none) : m.remove_user u = m := by
  simp [Task1.UserManager.remove_user, h]

/-- Witness for C5: removing "u1" from the empty manager returns it
unchanged. -/
theorem C5_remove_absent_noop_witness :
    Task1.UserManager.empty.users "u1" = none ∧
    Task1.UserManager.empty.remove_user "u1" = Task1.UserManager.empty := by
  exact ⟨rfl, C5_remove_absent_noop Task1.UserManager.empty "u1" rfl⟩

/-- Claim C6: for positive `w`, `h`, `Rectangle w h` has area `w * h`;
for positive `s`, `Square s` has area `s * s`. -/
theorem C6_areas (w h s : ℚ) (hw : 0 < w) (hh : 0 < h) (hs : 0 < s) :
    (Task3.Rectangle.mk w h).calculate_area = w * h ∧
    (Task3.Square.mk s).calculate_area = s * s := by
  exact ⟨rfl, rfl⟩

/-- Witness for C6: concrete positive dimensions 10, 5 and 10. -/
theorem C6_areas_witness :
    (0 : ℚ) < 10 ∧ (0 : ℚ) < 5 ∧
    ((Task3.Rectangle.mk 10 5).calculate_area = 10 * 5 ∧
      (Task3.Square.mk 10).calculate_area = 10 * 10) := by
  exact ⟨by norm_num, by norm_num,
    C6_areas 10 5 10 (by norm_num) (by norm_num) (by norm_num)⟩

/-- Claim C7: setting a Rectangle's width leaves its height unchanged
and setting its height leaves its width unchanged; a Square has a single
exposed dimension `size`, and its setter writes exactly that field, so
no setter of either concrete shape mutates an unrelated dimension. -/
theorem C7_setter_frame (r : Task3.Rectangle) (sq : Task3.Square) (v : ℚ) :
    ((r.setWidth v).height = r.height ∧ (r.setWidth v).width = v) ∧
    ((r.setHeight v).width = r.width ∧ (r.setHeight v).height = v) ∧
    (sq.setSize v).size = v := by
  exact ⟨⟨rfl, rfl⟩, ⟨rfl, rfl⟩, rfl⟩

/-- Claim C8: `HumanWorker` declares the work, eat and sleep
capabilities; `RobotWorker` declares exactly the work capability, so
invoking eat or sleep on it is ruled out at the level of declared
interfaces (there is no such method to call), not by a runtime check. -/
theorem C8_capability_segregation :
    Task4.Capability.work ∈ Task4.HumanWorker.capabilities ∧
    Task4.Capability.eat ∈ Task4.HumanWorker.capabilities ∧
    Task4.Capability.sleep ∈ Task4.HumanWorker.capabilities ∧
    Task4.RobotWorker.capabilities = [Task4.Capability.work] ∧
    Task4.Capability.eat ∉ Task4.RobotWorker.capabilities ∧
    Task4.Capability.sleep ∉ Task4.RobotWorker.capabilities := by
  refine ⟨?_, ?_, ?_, rfl, ?_, ?_⟩ <;> decide

/-- Claim C9: for every injected sender `s` and all arguments, the
service logs one processing event and then exactly `s.send contact
message`, arguments unmodified, by the one sender-agnostic definition;
instantiating with `EmailSender` or `SMSSender` changes only the
injected argument and routes to the corresponding channel. -/
theorem C9_delegation (s : Task5.IMessageSender)
    (user contact message : String) :
    (Task5.NotificationService.mk s).send_notification user contact message =
        [Task5.Event.processing user, s.send contact message] ∧
    (Task5.NotificationService.mk Task5.EmailSender).send_notification
        user contact message =
      [Task5.Event.processing user,
        Task5.Event.sent Task5.Channel.email contact message] ∧
    (Task5.NotificationService.mk Task5.SMSSender).send_notification
        user contact message =
      [Task5.Event.processing user,
        Task5.Event.sent Task5.Channel.sms contact message] := by
  exact ⟨rfl, rfl, rfl⟩

/-- Claim C10: `add_user` on an already-present user id overwrites the
stored email — after `add_user u e1` then `add_user u e2`,
`get_user_email u` returns `e2`. -/
theorem C10_add_overwrites (m : Task1.UserManager) (u e1 e2 : String) :
    (((m.add_user u e1).add_user u e2).get_user_email u) = some e2 := by
  simp [Task1.UserManager.add_user, Task1.UserManager.get_user_email]
